import Mathlib

/-!
Shallow embedding of the delfin/dolphin periodic telemetry collection core
and of the alert-normalization handlers, together with theorems checking the
natural-language specification against the code.

Python sources embedded here:
  * delfin/task_manager/scheduler/schedulers/telemetry/performance_collection_handler.py
  * delfin/drivers/ibm/v7000/ssh_handler.py  (judge_alert_time, get_time_stamp)
  * delfin/drivers/dell_emc/unity/alert_handler.py  (parse_alert, parse_queried_alerts)
  * dolphin/drivers/vmax_storage/alert_handler.py  (parse_alert)

External collaborators (the db store layer, the rpc dispatch, the clock and
the standard time library) are modelled as explicit parameters: each fallible
external call is an `Except` valued outcome supplied by the environment.
-/

namespace Delfin

/-- A Python runtime value as far as the embedded handlers inspect one:
absent/None, an integer, a string, or a datetime object.  A datetime object
is represented by its epoch timestamp in milliseconds, so that the Python
expression `int(d.timestamp() * 1000)` is the carried integer. -/
inductive PyVal where
  | none : PyVal
  | int : Int → PyVal
  | str : String → PyVal
  | dt : Int → PyVal
deriving DecidableEq

/-- Python truthiness for the values above: None, 0 and the empty string are
falsy, everything else is truthy. -/
def PyVal.truthy : PyVal → Bool
  | .none => false
  | .int n => n != 0
  | .str s => s != ""
  | .dt _ => true

/-- Whether a value is a Python int. -/
def PyVal.isInt : PyVal → Bool
  | .int _ => true
  | _ => false

/-- Python `d.get(k)` on a string-keyed dict: the value when the key is
present, None otherwise. -/
def dictGet (d : List (String × PyVal)) (k : String) : PyVal :=
  match d.find? (fun p => p.1 == k) with
  | some p => p.2
  | Option.none => PyVal.none

/-- FailedTask record as built by
`PerformanceCollectionHandler._handle_task_failure` (the columns of
delfin.db.sqlalchemy.models.FailedTask that the handler fills).  The window
bounds are optional because the Python locals `start_time`/`end_time` are
initialized to None before the attempt. -/
structure FailedTask where
  task_id : Nat
  interval : Int
  end_time : Option Int
  start_time : Option Int
  method : String
  retry_count : Nat
deriving DecidableEq

/-- Modelled from the spec: the fixed periodic-retry interval constant
`TelemetryCollection.PERIODIC_JOB_SCHEDULE_INTERVAL` lives in
delfin/common/constants.py, which is not under src/; the spec only says the
retry interval is a fixed constant, so its concrete value is irrelevant to
every claim below. -/
def PERIODIC_JOB_SCHEDULE_INTERVAL : Int := 180

/-- Fully qualified name of the recovery routine recorded in the
`method` column, `FailedPerformanceCollectionHandler.__module__ + '.' +
FailedPerformanceCollectionHandler.__name__`. -/
def failedCollectionMethod : String :=
  "delfin.task_manager.scheduler.schedulers.telemetry.failed_performance_collection_handler.FailedPerformanceCollectionHandler"

/-- The state a `PerformanceCollectionHandler` instance carries
(`__init__`: ctx, task_id, storage_id, args, interval). -/
structure PerformanceCollectionHandler where
  task_id : Nat
  storage_id : Nat
  args : PyVal
  interval : Int
deriving DecidableEq

/-- Outcomes of the external calls made by one `__call__` invocation:
the clock reading `int(datetime.utcnow().timestamp())` (whole seconds), the
rpc dispatch `task_rpcapi.collect_telemetry` (which may raise, error case,
or return a success boolean), the store write `db.task_update` and the store
write `db.failed_task_create` (each may raise). -/
structure CollectionEnv where
  now : Int
  dispatch : Except Unit Bool
  taskUpdate : Except Unit Unit
  failedCreate : Except Unit Unit

/-- Observable effects of one `__call__` invocation: the window handed to
the dispatch, the `last_run_time` value successfully written to the task row
(if the update ran and succeeded), the FailedTask rows inserted, and whether
an exception escaped the invocation. -/
structure CallResult where
  window : Int × Int
  lastRunUpdate : Option Int
  failedTasks : List FailedTask
  raised : Bool
deriving DecidableEq

/-- Lines 55-59 of performance_collection_handler.py: the collection window.
`end_time = current_time * 1000`, `start_time = end_time - interval * 1000`,
returned as (start_time, end_time). -/
def collectionWindow (interval now : Int) : Int × Int :=
  let end_time := now * 1000
  let start_time := end_time - interval * 1000
  (start_time, end_time)

/-- `PerformanceCollectionHandler._handle_task_failure`: builds the
FailedTask dict and calls `db.failed_task_create`.  Returns the rows
inserted and whether the (unguarded) store write raised. -/
def handleTaskFailure (h : PerformanceCollectionHandler)
    (createOutcome : Except Unit Unit)
    (start_time end_time : Option Int) : List FailedTask × Bool :=
  let ft : FailedTask :=
    { task_id := h.task_id
      interval := PERIODIC_JOB_SCHEDULE_INTERVAL
      end_time := end_time
      start_time := start_time
      method := failedCollectionMethod
      retry_count := 0 }
  match createOutcome with
  | .ok _ => ([ft], false)
  | .error _ => ([], true)

/-- `PerformanceCollectionHandler.__call__`.  Inside the try block: compute
the window, dispatch, `db.task_update(last_run_time := current_time)`, then
raise `TelemetryTaskExecError` when the dispatch reported failure.  Any
exception in the try block is caught and routed to `_handle_task_failure`;
an exception raised by `db.failed_task_create` itself is not guarded. -/
def PerformanceCollectionHandler.call (h : PerformanceCollectionHandler)
    (env : CollectionEnv) : CallResult :=
  let current_time := env.now
  let w := collectionWindow h.interval current_time
  match env.dispatch with
  | .error _ =>
    let r := handleTaskFailure h env.failedCreate (some w.1) (some w.2)
    ⟨w, Option.none, r.1, r.2⟩
  | .ok status =>
    match env.taskUpdate with
    | .error _ =>
      let r := handleTaskFailure h env.failedCreate (some w.1) (some w.2)
      ⟨w, Option.none, r.1, r.2⟩
    | .ok _ =>
      if status then
        ⟨w, some current_time, [], false⟩
      else
        let r := handleTaskFailure h env.failedCreate (some w.1) (some w.2)
        ⟨w, some current_time, r.1, r.2⟩

/-- A row of the Task store as read by `get_instance`. -/
structure TaskRecord where
  storage_id : Nat
  args : PyVal
  interval : Int
  last_run_time : Option Int
deriving DecidableEq

/-- Store lookup error. -/
inductive DbError where
  | taskNotFound : DbError
deriving DecidableEq

/-- Modelled from the spec: `db.task_get` (the db layer is not under src/;
the spec's store contract says each lookup is single-record and returns
NotFound when the id is absent). -/
def task_get (store : List (Nat × TaskRecord)) (task_id : Nat) :
    Except DbError TaskRecord :=
  match store.find? (fun p => p.1 == task_id) with
  | some p => .ok p.2
  | Option.none => .error .taskNotFound

/-- `PerformanceCollectionHandler.get_instance`: reads the task row and
builds the handler; a lookup error propagates unhandled to the caller and
nothing else runs. -/
def PerformanceCollectionHandler.get_instance
    (store : List (Nat × TaskRecord)) (task_id : Nat) :
    Except DbError PerformanceCollectionHandler :=
  match task_get store task_id with
  | .error e => .error e
  | .ok t => .ok ⟨task_id, t.storage_id, t.args, t.interval⟩

/-- Modelled from the spec: the severity constants of
delfin/common/constants.py (not under src/); the spec fixes the closed set
{CRITICAL, MAJOR, WARNING, FATAL, INFORMATIONAL, NOT_SPECIFIED}. -/
def Severity.CRITICAL : String := "Critical"

/-- Modelled from the spec: severity constant. -/
def Severity.MAJOR : String := "Major"

/-- Modelled from the spec: severity constant. -/
def Severity.WARNING : String := "Warning"

/-- Modelled from the spec: severity constant. -/
def Severity.FATAL : String := "Fatal"

/-- Modelled from the spec: severity constant. -/
def Severity.INFORMATIONAL : String := "Informational"

/-- Modelled from the spec: severity constant. -/
def Severity.NOT_SPECIFIED : String := "NotSpecified"

/-- The spec's closed set of normalized severities. -/
def severitySet : List String :=
  [Severity.CRITICAL, Severity.MAJOR, Severity.WARNING, Severity.FATAL,
   Severity.INFORMATIONAL, Severity.NOT_SPECIFIED]

/-- Modelled from the spec: `constants.EventType.EQUIPMENT_ALARM`
(delfin/common/constants.py is not under src/). -/
def EQUIPMENT_ALARM : String := "EquipmentAlarm"

/-- Modelled from the spec: `constants.DEFAULT_RESOURCE_TYPE`
(delfin/common/constants.py is not under src/). -/
def DEFAULT_RESOURCE_TYPE : String := "storage"

/-- An alert-list query: optional begin_time and end_time bounds. -/
structure QueryPara where
  begin_time : Option Int
  end_time : Option Int
deriving DecidableEq

/-- Modelled from the spec: `delfin.common.alert_util.is_alert_in_time_range`
(not under src/).  Per the spec, the filter admits exactly the alerts whose
occur_time lies within the queried range: both bounds given means
begin_time <= occur_time <= end_time, a single bound is a one-sided
constraint, and no query or no bound admits everything. -/
def is_alert_in_time_range (query_para : Option QueryPara) (occur_time : Int) :
    Bool :=
  match query_para with
  | Option.none => true
  | some q =>
    match q.begin_time, q.end_time with
    | some b, some e => decide (b ≤ occur_time) && decide (occur_time ≤ e)
    | some b, Option.none => decide (b ≤ occur_time)
    | Option.none, some e => decide (occur_time ≤ e)
    | Option.none, Option.none => true

namespace V7000

/-- `SSHHandler.get_time_stamp`, with the external
`time.strptime`/`time.mktime` pair abstracted as `parse` (returning the
epoch seconds, or failing).  The Python function starts from
`time_stamp = ''` and returns that empty string when the input is None or
the parse raises; otherwise it returns `int(time.mktime(arr) * 1000)`,
epoch milliseconds. -/
def get_time_stamp (parse : String → Option Int) (time_str : Option String) :
    PyVal :=
  match time_str with
  | Option.none => .str ""
  | some s =>
    match parse s with
    | Option.none => .str ""
    | some sec => .int (sec * 1000)

/-- Python truthiness of `query_para.get(key)` for an optional int bound. -/
def optTruthy : Option Int → Bool
  | Option.none => false
  | some v => v != 0

/-- The sequence of `if ... return True` checks in
`SSHHandler.judge_alert_time` once occur_time is an int: a both-bounds range
check, then a begin-only check, then an end-only check; the later checks run
even when both bounds were given (there is no elif/else), which is exactly
the fall-through this definition keeps. -/
def judgeChain (t : Int) (q : QueryPara) : Bool :=
  if optTruthy q.begin_time && optTruthy q.end_time
      && decide (t ≥ q.begin_time.getD 0) && decide (t ≤ q.end_time.getD 0)
  then true
  else if optTruthy q.begin_time && decide (t ≥ q.begin_time.getD 0)
  then true
  else if optTruthy q.end_time && decide (t ≤ q.end_time.getD 0)
  then true
  else false

/-- `SSHHandler.judge_alert_time`.  `map` is the parsed alert-detail
key/value dict; a short map is rejected, a missing query admits the alert,
and otherwise occur_time = get_time_stamp(map.get('last_timestamp')) is run
through the check chain.  When occur_time is the empty-string fallback, the
first executed comparison against an int bound raises TypeError (the error
case); with no truthy bound no comparison runs and False is returned. -/
def judge_alert_time (parse : String → Option Int)
    (map : List (String × String)) (query_para : Option QueryPara) :
    Except Unit Bool :=
  if map.length ≤ 1 then .ok false
  else
    match query_para with
    | Option.none => .ok true
    | some q =>
      let occur := get_time_stamp parse
        ((map.find? (fun p => p.1 == "last_timestamp")).map Prod.snd)
      match occur with
      | .int t => .ok (judgeChain t q)
      | _ =>
        if optTruthy q.begin_time || optTruthy q.end_time then .error ()
        else .ok false

end V7000

namespace Unity

/-- Exceptions raised by the Unity alert handler. -/
inductive UnityErr where
  | invalidInput : UnityErr
  | invalidResults : UnityErr
deriving DecidableEq

/-- `AlertHandler.OID_SEVERITY`. -/
def OID_SEVERITY : String := "1.3.6.1.6.3.1.1.4.1"

/-- `AlertHandler.OID_NODE`. -/
def OID_NODE : String := "1.3.6.1.4.1.1139.103.1.18.1.1"

/-- `AlertHandler.OID_SYMPTOMID`. -/
def OID_SYMPTOMID : String := "1.3.6.1.4.1.1139.103.1.18.1.3"

/-- `AlertHandler.OID_TIMESTAMP`. -/
def OID_TIMESTAMP : String := "1.3.6.1.4.1.1139.103.1.18.1.5"

/-- `AlertHandler.OID_SYMPTOMTEXT`. -/
def OID_SYMPTOMTEXT : String := "1.3.6.1.4.1.1139.103.1.18.1.4"

/-- `AlertHandler.OID_COMPONENT`. -/
def OID_COMPONENT : String := "1.3.6.1.4.1.1139.103.1.18.1.2"

/-- `AlertHandler.ALERT_LEVEL_MAP`: Unity queried-alert severity levels to
normalized severities. -/
def ALERT_LEVEL_MAP : List (Int × String) :=
  [(0, Severity.CRITICAL), (1, Severity.CRITICAL), (2, Severity.CRITICAL),
   (3, Severity.MAJOR), (4, Severity.WARNING), (5, Severity.FATAL),
   (6, Severity.INFORMATIONAL), (7, Severity.NOT_SPECIFIED)]

/-- `AlertHandler.TRAP_LEVEL_MAP`: trap OIDs to normalized severities. -/
def TRAP_LEVEL_MAP : List (String × String) :=
  [("1.3.6.1.4.1.1139.103.1.18.2.0", Severity.CRITICAL),
   ("1.3.6.1.4.1.1139.103.1.18.2.1", Severity.CRITICAL),
   ("1.3.6.1.4.1.1139.103.1.18.2.2", Severity.CRITICAL),
   ("1.3.6.1.4.1.1139.103.1.18.2.3", Severity.MAJOR),
   ("1.3.6.1.4.1.1139.103.1.18.2.4", Severity.WARNING),
   ("1.3.6.1.4.1.1139.103.1.18.2.5", Severity.FATAL),
   ("1.3.6.1.4.1.1139.103.1.18.2.6", Severity.INFORMATIONAL),
   ("1.3.6.1.4.1.1139.103.1.18.2.7", Severity.NOT_SPECIFIED)]

/-- `AlertHandler._mandatory_alert_attributes` (OID_COMPONENT listed
twice, as in the source tuple). -/
def mandatory_alert_attributes : List String :=
  [OID_SEVERITY, OID_NODE, OID_SYMPTOMID, OID_TIMESTAMP, OID_SYMPTOMTEXT,
   OID_COMPONENT, OID_COMPONENT]

/-- The normalized alert model dict the Unity handler returns. -/
structure UnityAlertModel where
  alert_id : PyVal
  alert_name : PyVal
  severity : String
  category : String
  type : String
  sequence_number : PyVal
  occur_time : PyVal
  description : PyVal
  resource_type : PyVal
  location : PyVal
deriving DecidableEq

/-- `self.TRAP_LEVEL_MAP.get(alert.get(OID_SEVERITY), NOT_SPECIFIED)`:
a dict lookup keyed by trap-OID strings, defaulting to NOT_SPECIFIED for
any unmapped (or non-string) raw value. -/
def trapSeverity (v : PyVal) : String :=
  match v with
  | .str s =>
    (((TRAP_LEVEL_MAP.find? (fun p => p.1 == s)).map Prod.snd)).getD
      Severity.NOT_SPECIFIED
  | _ => Severity.NOT_SPECIFIED

/-- `self.ALERT_LEVEL_MAP.get(content.get('severity'), NOT_SPECIFIED)`:
a dict lookup keyed by ints, defaulting to NOT_SPECIFIED. -/
def alertLevelSeverity (v : PyVal) : String :=
  match v with
  | .int n =>
    (((ALERT_LEVEL_MAP.find? (fun p => p.1 == n)).map Prod.snd)).getD
      Severity.NOT_SPECIFIED
  | _ => Severity.NOT_SPECIFIED

/-- `AlertHandler.parse_alert` (Unity): rejects the trap with InvalidInput
when any mandatory attribute is missing/falsy; then builds the model inside
a try block whose only fallible step is `occur_time.timestamp()` (raises
unless the OID_TIMESTAMP value is a datetime), caught and re-raised as
InvalidResults.  `int(occur_time.timestamp() * 1000)` is the epoch-ms
integer the datetime value carries. -/
def parse_alert (alert : List (String × PyVal)) :
    Except UnityErr UnityAlertModel :=
  if ¬ (mandatory_alert_attributes.all (fun k => (dictGet alert k).truthy))
  then .error .invalidInput
  else
    match dictGet alert OID_TIMESTAMP with
    | .dt ms =>
      .ok { alert_id := dictGet alert OID_SYMPTOMID
            alert_name := dictGet alert OID_SYMPTOMID
            severity := trapSeverity (dictGet alert OID_SEVERITY)
            category := "Event"
            type := EQUIPMENT_ALARM
            sequence_number := dictGet alert OID_NODE
            occur_time := .int ms
            description := dictGet alert OID_COMPONENT
            resource_type := .str DEFAULT_RESOURCE_TYPE
            location := dictGet alert OID_NODE }
    | _ => .error .invalidResults

/-- The `component` sub-dict of a queried Unity alert's content. -/
structure UnityComponent where
  resource : PyVal
  id : PyVal
deriving DecidableEq

/-- The `content` sub-dict of one queried Unity alert entry. -/
structure UnityContent where
  timestamp : PyVal
  severity : PyVal
  messageId : PyVal
  message : PyVal
  id : PyVal
  description : PyVal
  component : Option UnityComponent
deriving DecidableEq

/-- One raw entry of the queried alert list.  `hasComponentKey` is the
outer-dict membership test `'component' in alert`; `content` is
`alert.get('content')` (None when absent). -/
structure UnityRawAlert where
  hasComponentKey : Bool
  content : Option UnityContent
deriving DecidableEq

/-- The model-building body shared by the two component branches of
`parse_queried_alerts`. -/
def buildQueriedModel (c : UnityContent) (resource_type location : PyVal)
    (occur_time : Int) : UnityAlertModel :=
  { alert_id := c.messageId
    alert_name := c.message
    severity := alertLevelSeverity c.severity
    category := "Fault"
    type := EQUIPMENT_ALARM
    sequence_number := c.id
    occur_time := .int (occur_time * 1000)
    description := c.description
    resource_type := resource_type
    location := location }

/-- The per-entry try block of `AlertHandler.parse_queried_alerts`:
parse the content timestamp (`time.strptime`/`time.mktime` abstracted as
`parse`, epoch seconds), drop the entry when it fails the time-range filter,
then build the model; any exception inside the block (missing content,
non-string or unparseable timestamp, component sub-dict access on None) is
caught and re-raised as InvalidResults.  `.ok none` means filtered out. -/
def parse_queried_alert (parse : String → Option Int)
    (query_para : Option QueryPara) (alert : UnityRawAlert) :
    Except UnityErr (Option UnityAlertModel) :=
  match alert.content with
  | Option.none => .error .invalidResults
  | some c =>
    match c.timestamp with
    | .str ts =>
      match parse ts with
      | Option.none => .error .invalidResults
      | some occur_time =>
        if ¬ (is_alert_in_time_range query_para occur_time)
        then .ok Option.none
        else
          if alert.hasComponentKey then
            match c.component with
            | Option.none => .error .invalidResults
            | some comp =>
              .ok (some (buildQueriedModel c comp.resource comp.id occur_time))
          else
            .ok (some (buildQueriedModel c (.str DEFAULT_RESOURCE_TYPE)
              (.str "") occur_time))
    | _ => .error .invalidResults

/-- `AlertHandler.parse_queried_alerts`: folds the per-entry block over the
entry list, appending each surviving model; the first exception aborts the
whole call, so the list built so far is discarded and the caller sees only
the InvalidResults error. -/
def parse_queried_alerts (parse : String → Option Int)
    (query_para : Option QueryPara) (entries : List UnityRawAlert) :
    Except UnityErr (List UnityAlertModel) :=
  match entries with
  | [] => .ok []
  | a :: rest =>
    match parse_queried_alert parse query_para a with
    | .error e => .error e
    | .ok Option.none => parse_queried_alerts parse query_para rest
    | .ok (some m) =>
      (parse_queried_alerts parse query_para rest).map (fun l => m :: l)

end Unity

namespace Vmax

/-- A calendar date, standing for Python `datetime.date.today()`. -/
structure Date where
  year : Nat
  month : Nat
  day : Nat
deriving DecidableEq

/-- The month abbreviations used by `strftime("%b-...")` in the C locale. -/
def monthAbbr : Nat → String
  | 1 => "Jan" | 2 => "Feb" | 3 => "Mar" | 4 => "Apr" | 5 => "May"
  | 6 => "Jun" | 7 => "Jul" | 8 => "Aug" | 9 => "Sep" | 10 => "Oct"
  | 11 => "Nov" | 12 => "Dec" | _ => ""

/-- Zero-padded two-digit day, as `%d` renders it. -/
def pad2 (n : Nat) : String :=
  if n < 10 then "0" ++ toString n else toString n

/-- Python `today.strftime("%b-%d-%Y")`. -/
def strftimeBdY (d : Date) : String :=
  monthAbbr d.month ++ "-" ++ pad2 d.day ++ "-" ++ toString d.year

/-- `AlertHandler.necessary_alert_attr` of the vmax driver. -/
def necessary_alert_attr : List String :=
  ["storage_id", "name", "location", "vendor", "model",
   "emcAsyncEventComponentType", "emcAsyncEventComponentName",
   "connUnitEventType", "emcAsyncEventCode", "connUnitEventSeverity",
   "requestId", "connUnitEventDescr", "connUnitType"]

/-- The alert model dict the vmax `parse_alert` returns (its own legacy
field set). -/
structure VmaxAlertModel where
  category : PyVal
  occur_time : PyVal
  me_dn : PyVal
  me_name : PyVal
  location_info : PyVal
  manufacturer : PyVal
  product_name : PyVal
  native_me_dn : PyVal
  event_type : PyVal
  alarm_id : PyVal
  alarm_name : PyVal
  severity : PyVal
  deviceAlertSn : PyVal
  probable_cause : PyVal
  clear_type : PyVal
  me_category : PyVal
deriving DecidableEq

/-- Python string concatenation `a + ' ' + b`; raises TypeError unless both
operands are strings. -/
def pyStrConcat (a b : PyVal) : Except Unit PyVal :=
  match a, b with
  | .str x, .str y => .ok (.str (x ++ " " ++ y))
  | _, _ => .error ()

/-- `AlertHandler.parse_alert` (vmax): raises ValueError when a necessary
attribute is missing/falsy; otherwise fills the model.  The trap carries no
occur time, so the source sets `occur_time = date.today().strftime(
"%b-%d-%Y")`, a formatted date string; severity is the raw
`connUnitEventSeverity` value passed through unmapped.  The function has no
try block, so the TypeError from the `native_me_dn` concatenation would
also propagate. -/
def parse_alert (today : Date) (alert : List (String × PyVal)) :
    Except Unit VmaxAlertModel :=
  if ¬ (necessary_alert_attr.all (fun k => (dictGet alert k).truthy))
  then .error ()
  else
    match pyStrConcat (dictGet alert "emcAsyncEventComponentType")
        (dictGet alert "emcAsyncEventComponentName") with
    | .error e => .error e
    | .ok native_me =>
      .ok { category :=
              if (dictGet alert "category").truthy then dictGet alert "category"
              else .str "New"
            occur_time := .str (strftimeBdY today)
            me_dn := dictGet alert "storage_id"
            me_name := dictGet alert "name"
            location_info := dictGet alert "location"
            manufacturer := dictGet alert "vendor"
            product_name := dictGet alert "model"
            native_me_dn := native_me
            event_type := dictGet alert "connUnitEventType"
            alarm_id := dictGet alert "emcAsyncEventCode"
            alarm_name := dictGet alert "emcAsyncEventCode"
            severity := dictGet alert "connUnitEventSeverity"
            deviceAlertSn := dictGet alert "requestId"
            probable_cause := dictGet alert "connUnitEventDescr"
            clear_type := .str ""
            me_category := dictGet alert "connUnitType" }

/-- A concrete raw trap with every necessary attribute present and truthy,
carrying an unmapped vendor severity string. -/
def sampleVmaxAlert : List (String × PyVal) :=
  [("storage_id", .str "sto1"), ("name", .str "arr"),
   ("location", .str "dc1"), ("vendor", .str "DellEMC"),
   ("model", .str "VMAX250F"),
   ("emcAsyncEventComponentType", .str "symmetrix"),
   ("emcAsyncEventComponentName", .str "0001"),
   ("connUnitEventType", .str "topology"),
   ("emcAsyncEventCode", .str "1050"),
   ("connUnitEventSeverity", .str "bogus-severity"),
   ("requestId", .str "42"), ("connUnitEventDescr", .str "link down"),
   ("connUnitType", .str "storage-subsystem")]

end Vmax

/-! Theorems settling the claims. -/

/-- C1: for every task with interval I > 0, one invocation of the Collection
Handler computes end_time as the current whole-second wall-clock reading in
milliseconds and start_time as end_time - I*1000, so the dispatched window
is exactly one interval wide. -/
theorem C1_window (h : PerformanceCollectionHandler) (env : CollectionEnv)
    (hpos : 0 < h.interval) :
    (h.call env).window = (env.now * 1000 - h.interval * 1000, env.now * 1000) ∧
    (h.call env).window.2 - (h.call env).window.1 = h.interval * 1000 ∧
    (h.call env).window.1 < (h.call env).window.2 := by
  have hw : (h.call env).window =
      (env.now * 1000 - h.interval * 1000, env.now * 1000) := by
    rcases env with ⟨now, dispatch, tu, fc⟩
    cases dispatch with
    | error e =>
      simp [PerformanceCollectionHandler.call, collectionWindow]
    | ok status =>
      cases tu <;> cases status <;>
        simp [PerformanceCollectionHandler.call, collectionWindow]
  refine ⟨hw, ?_, ?_⟩
  · rw [hw]; ring
  · rw [hw]
    have : 0 < h.interval * 1000 := by positivity
    omega

/-- Witness for C1 at Scenario A: interval 300, now 1,700,000,000 s. -/
theorem C1_window_witness :
    (0 : Int) < 300 ∧
    ((PerformanceCollectionHandler.mk 1 1 PyVal.none 300).call
      (CollectionEnv.mk 1700000000 (Except.ok true) (Except.ok ())
        (Except.ok ()))).window = (1699999700000, 1700000000000) := by
  have h := C1_window (PerformanceCollectionHandler.mk 1 1 PyVal.none 300)
    (CollectionEnv.mk 1700000000 (Except.ok true) (Except.ok ())
      (Except.ok ())) (by norm_num)
  refine ⟨by norm_num, ?_⟩
  rw [h.1]
  norm_num

/-- C2: whenever the driver dispatch raises or reports success=false and the
failed-task store write goes through, exactly one FailedTask is inserted,
with the handler's task_id, retry_count 0, the fixed periodic-retry
interval, the recovery-routine identifier, and the window computed for this
attempt. -/
theorem C2_failed_task_record (h : PerformanceCollectionHandler)
    (env : CollectionEnv)
    (hfail : env.dispatch = .error () ∨ env.dispatch = .ok false)
    (hcreate : env.failedCreate = .ok ()) :
    (h.call env).failedTasks =
      [{ task_id := h.task_id
         interval := PERIODIC_JOB_SCHEDULE_INTERVAL
         end_time := some (env.now * 1000)
         start_time := some (env.now * 1000 - h.interval * 1000)
         method := failedCollectionMethod
         retry_count := 0 }] := by
  rcases env with ⟨now, dispatch, tu, fc⟩
  simp only at hfail hcreate
  rcases hfail with hf | hf <;> subst hf <;> subst hcreate <;>
    cases tu <;>
    simp [PerformanceCollectionHandler.call, collectionWindow,
      handleTaskFailure]

/-- Witness for C2 at Scenario B: task 2, interval 60, now T = 1,700,000,000
with the dispatch raising. -/
theorem C2_failed_task_record_witness :
    ((PerformanceCollectionHandler.mk 2 1 PyVal.none 60).call
      (CollectionEnv.mk 1700000000 (Except.error ()) (Except.ok ())
        (Except.ok ()))).failedTasks =
      [{ task_id := 2
         interval := PERIODIC_JOB_SCHEDULE_INTERVAL
         end_time := some 1700000000000
         start_time := some 1699999940000
         method := failedCollectionMethod
         retry_count := 0 }] := by
  have h := C2_failed_task_record (PerformanceCollectionHandler.mk 2 1
      PyVal.none 60)
    (CollectionEnv.mk 1700000000 (Except.error ()) (Except.ok ())
      (Except.ok ())) (Or.inl rfl) rfl
  rw [h]
  norm_num

/-- C3 counterexample: with the driver dispatch raising and the Failed-Task
Store write itself raising, the exception escapes `__call__`, contradicting
the claim that no exception propagates out of the handler even when the
store write fails. -/
theorem C3_counterexample :
    ((PerformanceCollectionHandler.mk 1 1 PyVal.none 300).call
      (CollectionEnv.mk 1700000000 (Except.error ()) (Except.ok ())
        (Except.error ()))).raised = true := rfl

/-- C3 amended: every driver, transport, or task-store exception raised
inside the collection attempt is caught and converted into a FailedTask
enqueue, and nothing escapes the handler provided the Failed-Task Store
write itself succeeds (a failing failed_task_create is the one path that
propagates). -/
theorem C3_amended_no_raise (h : PerformanceCollectionHandler)
    (env : CollectionEnv) (hcreate : env.failedCreate = .ok ()) :
    (h.call env).raised = false := by
  rcases env with ⟨now, dispatch, tu, fc⟩
  simp only at hcreate
  subst hcreate
  cases dispatch with
  | error e =>
    simp [PerformanceCollectionHandler.call, handleTaskFailure]
  | ok status =>
    cases tu <;> cases status <;>
      simp [PerformanceCollectionHandler.call, handleTaskFailure]

/-- Witness for the amended C3: dispatch raises, task update raises, but the
failed-task write succeeds and nothing escapes. -/
theorem C3_amended_no_raise_witness :
    ((PerformanceCollectionHandler.mk 1 1 PyVal.none 300).call
      (CollectionEnv.mk 1700000000 (Except.error ()) (Except.error ())
        (Except.ok ()))).raised = false :=
  C3_amended_no_raise (PerformanceCollectionHandler.mk 1 1 PyVal.none 300)
    (CollectionEnv.mk 1700000000 (Except.error ()) (Except.error ())
      (Except.ok ())) rfl

/-- C4 counterexample: a run in which the driver reports success=false is a
failed run (a FailedTask is enqueued), yet Task.last_run_time is still
updated to now(), because the source updates the task row before checking
the dispatch status; this contradicts the claim that last_run_time changes
exactly on success. -/
theorem C4_counterexample :
    ((PerformanceCollectionHandler.mk 1 1 PyVal.none 300).call
      (CollectionEnv.mk 1700000000 (Except.ok false) (Except.ok ())
        (Except.ok ()))).lastRunUpdate = some 1700000000 ∧
    ((PerformanceCollectionHandler.mk 1 1 PyVal.none 300).call
      (CollectionEnv.mk 1700000000 (Except.ok false) (Except.ok ())
        (Except.ok ()))).failedTasks.length = 1 := ⟨rfl, rfl⟩

/-- C4 amended: Task.last_run_time is updated to now() whenever the driver
dispatch returns (even when it reports success=false) and the task-store
update succeeds; it is left unchanged when the dispatch raises or the
update itself fails; and on a successful run the Failed-Task Store is not
modified. -/
theorem C4_amended_last_run (h : PerformanceCollectionHandler)
    (env : CollectionEnv) :
    ((∃ b, env.dispatch = .ok b) → env.taskUpdate = .ok () →
      (h.call env).lastRunUpdate = some env.now) ∧
    ((env.dispatch = .error () ∨ env.taskUpdate = .error ()) →
      (h.call env).lastRunUpdate = Option.none) ∧
    (env.dispatch = .ok true → env.taskUpdate = .ok () →
      (h.call env).failedTasks = [] ∧ (h.call env).raised = false) := by
  rcases env with ⟨now, dispatch, tu, fc⟩
  refine ⟨?_, ?_, ?_⟩
  · rintro ⟨b, hb⟩ htu
    simp only at hb htu
    subst hb; subst htu
    cases b <;> simp [PerformanceCollectionHandler.call]
  · rintro (hd | htu)
    · simp only at hd
      subst hd
      simp [PerformanceCollectionHandler.call]
    · simp only at htu
      subst htu
      cases dispatch with
      | error e => simp [PerformanceCollectionHandler.call]
      | ok status => simp [PerformanceCollectionHandler.call]
  · intro hd htu
    simp only at hd htu
    subst hd; subst htu
    simp [PerformanceCollectionHandler.call]

/-- Witness for the amended C4: a dispatch that returns success=false with a
successful task update still stamps last_run_time; a successful run leaves
the Failed-Task store untouched. -/
theorem C4_amended_last_run_witness :
    ((PerformanceCollectionHandler.mk 1 1 PyVal.none 300).call
      (CollectionEnv.mk 1700000000 (Except.ok false) (Except.ok ())
        (Except.ok ()))).lastRunUpdate = some 1700000000 ∧
    ((PerformanceCollectionHandler.mk 1 1 PyVal.none 300).call
      (CollectionEnv.mk 1700000000 (Except.ok true) (Except.ok ())
        (Except.ok ()))).failedTasks = [] :=
  ⟨(C4_amended_last_run (PerformanceCollectionHandler.mk 1 1 PyVal.none 300)
      (CollectionEnv.mk 1700000000 (Except.ok false) (Except.ok ())
        (Except.ok ()))).1 ⟨false, rfl⟩ rfl,
   ((C4_amended_last_run (PerformanceCollectionHandler.mk 1 1 PyVal.none 300)
      (CollectionEnv.mk 1700000000 (Except.ok true) (Except.ok ())
        (Except.ok ()))).2.2 rfl rfl).1⟩

/-- C5: every FailedTask the Collection Handler creates, on every failure
path of the attempt, has retry_count 0 and a window with
end_time - start_time = interval*1000 and end_time > start_time (given
interval > 0). -/
theorem C5_failed_task_invariant (h : PerformanceCollectionHandler)
    (env : CollectionEnv) (hpos : 0 < h.interval) :
    ∀ ft ∈ (h.call env).failedTasks,
      ft.retry_count = 0 ∧
      ∃ s e, ft.start_time = some s ∧ ft.end_time = some e ∧
        e - s = h.interval * 1000 ∧ s < e := by
  have key : ∀ ft ∈ (h.call env).failedTasks,
      ft = { task_id := h.task_id
             interval := PERIODIC_JOB_SCHEDULE_INTERVAL
             end_time := some (env.now * 1000)
             start_time := some (env.now * 1000 - h.interval * 1000)
             method := failedCollectionMethod
             retry_count := 0 } := by
    rcases env with ⟨now, dispatch, tu, fc⟩
    cases dispatch with
    | error e =>
      cases fc <;>
        simp [PerformanceCollectionHandler.call, collectionWindow,
          handleTaskFailure]
    | ok status =>
      cases tu <;> cases status <;> cases fc <;>
        simp [PerformanceCollectionHandler.call, collectionWindow,
          handleTaskFailure]
  intro ft hft
  have heq := key ft hft
  subst heq
  refine ⟨rfl, env.now * 1000 - h.interval * 1000, env.now * 1000, rfl, rfl,
    by ring, ?_⟩
  have : 0 < h.interval * 1000 := by positivity
  omega

/-- Witness for C5: a concrete failing run with interval 60 whose single
FailedTask satisfies the invariant. -/
theorem C5_failed_task_invariant_witness :
    (0 : Int) < 60 ∧
    ∀ ft ∈ ((PerformanceCollectionHandler.mk 2 1 PyVal.none 60).call
      (CollectionEnv.mk 1700000000 (Except.error ()) (Except.ok ())
        (Except.ok ()))).failedTasks,
      ft.retry_count = 0 ∧
      ∃ s e, ft.start_time = some s ∧ ft.end_time = some e ∧
        e - s = 60 * 1000 ∧ s < e :=
  ⟨by norm_num,
   C5_failed_task_invariant (PerformanceCollectionHandler.mk 2 1 PyVal.none 60)
    (CollectionEnv.mk 1700000000 (Except.error ()) (Except.ok ())
      (Except.ok ())) (by norm_num)⟩

/-- C6: constructing a Collection Handler for a task_id absent from the Task
store fails with TaskNotFound — the lookup error propagates out of
get_instance, which performs nothing else, so no collection is attempted and
no FailedTask is created. -/
theorem C6_task_not_found (store : List (Nat × TaskRecord)) (task_id : Nat)
    (habs : ∀ p ∈ store, p.1 ≠ task_id) :
    PerformanceCollectionHandler.get_instance store task_id =
      .error .taskNotFound := by
  have hfind : store.find? (fun p => p.1 == task_id) = Option.none := by
    apply List.find?_eq_none.mpr
    intro p hp
    simpa using habs p hp
  simp [PerformanceCollectionHandler.get_instance, task_get, hfind]

/-- Witness for C6: the empty store contains no task 7. -/
theorem C6_task_not_found_witness :
    PerformanceCollectionHandler.get_instance [] 7 =
      .error .taskNotFound :=
  C6_task_not_found [] 7 (by simp)

/-! Helper lemmas about the Unity severity lookups and the shape of the
models the Unity handler produces. -/

/-- Every severity the trap-OID lookup can return lies in the spec's closed
severity set. -/
theorem trapSeverity_mem (v : PyVal) :
    Unity.trapSeverity v ∈ severitySet := by
  cases v with
  | str s =>
    show (((Unity.TRAP_LEVEL_MAP.find? (fun p => p.1 == s)).map
      Prod.snd)).getD Severity.NOT_SPECIFIED ∈ severitySet
    cases hf : Unity.TRAP_LEVEL_MAP.find? (fun p => p.1 == s) with
    | none => decide
    | some p =>
      have hp : p ∈ Unity.TRAP_LEVEL_MAP := List.mem_of_find?_eq_some hf
      have h2 : p.2 ∈ severitySet := by
        fin_cases hp <;> decide
      simpa using h2
  | none => exact (by decide : Severity.NOT_SPECIFIED ∈ severitySet)
  | int n => exact (by decide : Severity.NOT_SPECIFIED ∈ severitySet)
  | dt t => exact (by decide : Severity.NOT_SPECIFIED ∈ severitySet)

/-- Every severity the queried-alert level lookup can return lies in the
spec's closed severity set. -/
theorem alertLevelSeverity_mem (v : PyVal) :
    Unity.alertLevelSeverity v ∈ severitySet := by
  cases v with
  | int n =>
    show (((Unity.ALERT_LEVEL_MAP.find? (fun p => p.1 == n)).map
      Prod.snd)).getD Severity.NOT_SPECIFIED ∈ severitySet
    cases hf : Unity.ALERT_LEVEL_MAP.find? (fun p => p.1 == n) with
    | none => decide
    | some p =>
      have hp : p ∈ Unity.ALERT_LEVEL_MAP := List.mem_of_find?_eq_some hf
      have h2 : p.2 ∈ severitySet := by
        fin_cases hp <;> decide
      simpa using h2
  | none => exact (by decide : Severity.NOT_SPECIFIED ∈ severitySet)
  | str s => exact (by decide : Severity.NOT_SPECIFIED ∈ severitySet)
  | dt t => exact (by decide : Severity.NOT_SPECIFIED ∈ severitySet)

/-- A model returned by the Unity trap parser carries an integer occur_time
and a looked-up severity. -/
theorem parse_alert_ok_shape (alert : List (String × PyVal))
    (m : Unity.UnityAlertModel) (h : Unity.parse_alert alert = .ok m) :
    (∃ ms, m.occur_time = PyVal.int ms) ∧
    m.severity = Unity.trapSeverity (dictGet alert Unity.OID_SEVERITY) := by
  unfold Unity.parse_alert at h
  split at h
  · simp at h
  · cases hdt : dictGet alert Unity.OID_TIMESTAMP <;> rw [hdt] at h
    case none => simp at h
    case int n => simp at h
    case str s => simp at h
    case dt ms =>
      injection h with h2
      subst h2
      exact ⟨⟨ms, rfl⟩, rfl⟩

/-- Every model the per-entry block of the Unity queried-alert parser emits
is `buildQueriedModel` applied to the entry's content, some resource/type
pair, and the parsed occur_time in seconds. -/
theorem parse_queried_alert_ok_shape (parse : String → Option Int)
    (q : Option QueryPara) (a : Unity.UnityRawAlert)
    (m : Unity.UnityAlertModel)
    (h : Unity.parse_queried_alert parse q a = .ok (some m)) :
    ∃ c rt loc sec, m = Unity.buildQueriedModel c rt loc sec := by
  obtain ⟨hk, oc⟩ := a
  cases oc with
  | none => simp [Unity.parse_queried_alert] at h
  | some c =>
    obtain ⟨tsv, sevv, midv, msgv, idv, descv, compv⟩ := c
    cases tsv with
    | none => simp [Unity.parse_queried_alert] at h
    | int n => simp [Unity.parse_queried_alert] at h
    | dt t => simp [Unity.parse_queried_alert] at h
    | str ts =>
      cases hp : parse ts with
      | none => simp [Unity.parse_queried_alert, hp] at h
      | some sec =>
        simp only [Unity.parse_queried_alert, hp] at h
        split at h
        · simp at h
        · split at h
          · cases compv with
            | none => simp at h
            | some comp =>
              simp only [Except.ok.injEq, Option.some.injEq] at h
              exact ⟨_, _, _, _, h.symm⟩
          · simp only [Except.ok.injEq, Option.some.injEq] at h
            exact ⟨_, _, _, _, h.symm⟩

/-- Every model in a successfully returned Unity queried-alert list is a
`buildQueriedModel`. -/
theorem parse_queried_alerts_ok_shape (parse : String → Option Int)
    (q : Option QueryPara) (entries : List Unity.UnityRawAlert)
    (l : List Unity.UnityAlertModel)
    (h : Unity.parse_queried_alerts parse q entries = .ok l) :
    ∀ m ∈ l, ∃ c rt loc sec, m = Unity.buildQueriedModel c rt loc sec := by
  induction entries generalizing l with
  | nil =>
    unfold Unity.parse_queried_alerts at h
    injection h with h2
    subst h2
    simp
  | cons a rest ih =>
    unfold Unity.parse_queried_alerts at h
    cases hpa : Unity.parse_queried_alert parse q a <;> rw [hpa] at h
    case error e => simp at h
    case ok o =>
      cases o with
      | none => exact ih l h
      | some m0 =>
        cases hrest : Unity.parse_queried_alerts parse q rest <;>
          rw [hrest] at h
        case error e => simp [Except.map] at h
        case ok lr =>
          simp only [Except.map] at h
          injection h with h2
          subst h2
          intro m hm
          rcases List.mem_cons.mp hm with hm0 | hmr
          · subst hm0
            exact parse_queried_alert_ok_shape parse q a m hpa
          · exact ih lr hrest m hmr

/-- A concrete Unity trap with all mandatory attributes present, whose
severity OID maps to MAJOR. -/
def sampleUnityTrap : List (String × PyVal) :=
  [(Unity.OID_SEVERITY, .str "1.3.6.1.4.1.1139.103.1.18.2.3"),
   (Unity.OID_NODE, .str "node-1"),
   (Unity.OID_SYMPTOMID, .str "sym-9"),
   (Unity.OID_TIMESTAMP, .dt 1700000000123),
   (Unity.OID_SYMPTOMTEXT, .str "text"),
   (Unity.OID_COMPONENT, .str "comp")]

/-- The model the Unity trap parser produces for `sampleUnityTrap`. -/
def sampleUnityTrapModel : Unity.UnityAlertModel :=
  { alert_id := .str "sym-9"
    alert_name := .str "sym-9"
    severity := Severity.MAJOR
    category := "Event"
    type := EQUIPMENT_ALARM
    sequence_number := .str "node-1"
    occur_time := .int 1700000000123
    description := .str "comp"
    resource_type := .str DEFAULT_RESOURCE_TYPE
    location := .str "node-1" }

/-- C7: the v7000 time-range filter `judge_alert_time` does not implement
the specified range membership: with both bounds supplied
(begin_time=100000, end_time=200000) an alert occurring at 50000, outside
the range, is admitted (the both-bounds range check falls through into the
single-bound checks), whereas the spec's `is_alert_in_time_range` excludes
it. -/
theorem C7_judge_admits_outside_range :
    V7000.judge_alert_time (fun _ => some 50)
      [("last_timestamp", "100504075900"), ("sequence_number", "120")]
      (some (QueryPara.mk (some 100000) (some 200000))) =
      Except.ok true ∧
    is_alert_in_time_range (some (QueryPara.mk (some 100000) (some 200000)))
      50000 = false := ⟨rfl, rfl⟩

/-- C8 counterexample: the vmax `parse_alert` accepts a complete raw trap
yet sets occur_time to a formatted date string, not an integer epoch
millisecond value. -/
theorem C8_counterexample :
    (Vmax.parse_alert (Vmax.Date.mk 2026 10 12) Vmax.sampleVmaxAlert).map
      (fun m => (m.occur_time, m.occur_time.isInt)) =
      .ok (PyVal.str "Oct-12-2026", false) := rfl

/-- C8 amended: every AlertModel produced by the Unity driver's parse_alert
or parse_queried_alerts has an integer occur_time, in epoch milliseconds
(parse_queried_alerts multiplies the parsed epoch seconds by 1000), and the
v7000 timestamp conversion returns epoch milliseconds whenever the raw
timestamp parses; the vmax parse_alert instead emits a formatted date
string, and v7000 falls back to an empty string when the timestamp is
absent or unparseable. -/
theorem C8_amended_occur_time :
    (∀ alert m, Unity.parse_alert alert = .ok m →
      ∃ ms, m.occur_time = PyVal.int ms) ∧
    (∀ parse q entries l,
      Unity.parse_queried_alerts parse q entries = .ok l →
      ∀ m ∈ l, ∃ sec, m.occur_time = PyVal.int (sec * 1000)) ∧
    (∀ parse s sec, parse s = some sec →
      V7000.get_time_stamp parse (some s) = PyVal.int (sec * 1000)) := by
  refine ⟨?_, ?_, ?_⟩
  · intro alert m hm
    exact (parse_alert_ok_shape alert m hm).1
  · intro parse q entries l hl m hm
    obtain ⟨c, rt, loc, sec, hshape⟩ :=
      parse_queried_alerts_ok_shape parse q entries l hl m hm
    subst hshape
    exact ⟨sec, rfl⟩
  · intro parse s sec hp
    simp [V7000.get_time_stamp, hp]

/-- Witness for the amended C8: the concrete Unity trap model and a parsed
v7000 timestamp. -/
theorem C8_amended_occur_time_witness :
    (∃ ms, sampleUnityTrapModel.occur_time = PyVal.int ms) ∧
    V7000.get_time_stamp (fun _ => some 150) (some "20200101000000") =
      PyVal.int (150 * 1000) :=
  ⟨C8_amended_occur_time.1 sampleUnityTrap sampleUnityTrapModel rfl,
   C8_amended_occur_time.2.2 (fun _ => some 150) "20200101000000" 150 rfl⟩

/-- C9 counterexample: the vmax `parse_alert` passes the raw vendor severity
through unmapped, so a value outside the closed severity set reaches the
model unchanged. -/
theorem C9_counterexample :
    (Vmax.parse_alert (Vmax.Date.mk 2026 10 12) Vmax.sampleVmaxAlert).map
      (fun m => m.severity) = .ok (PyVal.str "bogus-severity") ∧
    ∀ s ∈ severitySet, s ≠ "bogus-severity" := by
  exact ⟨rfl, by decide⟩

/-- C9 amended: every AlertModel produced by the Unity driver's parse_alert
or parse_queried_alerts has severity drawn from the closed set {CRITICAL,
MAJOR, WARNING, FATAL, INFORMATIONAL, NOT_SPECIFIED}, with unmapped raw
values normalized to NOT_SPECIFIED; the vmax parse_alert instead forwards
the raw vendor severity unchanged. -/
theorem C9_amended_severity_closed :
    (∀ alert m, Unity.parse_alert alert = .ok m →
      m.severity ∈ severitySet) ∧
    (∀ parse q entries l,
      Unity.parse_queried_alerts parse q entries = .ok l →
      ∀ m ∈ l, m.severity ∈ severitySet) := by
  constructor
  · intro alert m hm
    have h := (parse_alert_ok_shape alert m hm).2
    rw [h]
    exact trapSeverity_mem _
  · intro parse q entries l hl m hm
    obtain ⟨c, rt, loc, sec, hshape⟩ :=
      parse_queried_alerts_ok_shape parse q entries l hl m hm
    subst hshape
    exact alertLevelSeverity_mem _

/-- Witness for the amended C9: the concrete Unity trap model's severity is
in the closed set. -/
theorem C9_amended_severity_closed_witness :
    sampleUnityTrapModel.severity ∈ severitySet :=
  C9_amended_severity_closed.1 sampleUnityTrap sampleUnityTrapModel rfl

/-- C10: if the per-entry model building raises for some entry after a run
of successfully handled entries, the Unity `parse_queried_alerts` call
returns only the InvalidResults error — the models already built for
earlier entries are discarded, never returned as a partial list. -/
theorem C10_no_partial_list (parse : String → Option Int)
    (q : Option QueryPara) (pre : List Unity.UnityRawAlert)
    (bad : Unity.UnityRawAlert) (rest : List Unity.UnityRawAlert)
    (hpre : ∀ a ∈ pre, ∃ r, Unity.parse_queried_alert parse q a = .ok r)
    (hbad : Unity.parse_queried_alert parse q bad = .error .invalidResults) :
    Unity.parse_queried_alerts parse q (pre ++ bad :: rest) =
      .error .invalidResults := by
  induction pre with
  | nil =>
    unfold Unity.parse_queried_alerts
    simp [hbad]
  | cons a pre ih =>
    obtain ⟨r, hr⟩ := hpre a (by simp)
    have ih2 := ih (fun x hx => hpre x (by simp [hx]))
    cases r with
    | none =>
      unfold Unity.parse_queried_alerts
      simpa [hr] using ih2
    | some m =>
      unfold Unity.parse_queried_alerts
      simp [hr, ih2, Except.map]

/-- A queried Unity entry whose content parses and passes the filter. -/
def sampleUnityEntry : Unity.UnityRawAlert :=
  { hasComponentKey := false
    content := some
      { timestamp := .str "2020-01-01,00:00:00.000Z"
        severity := .int 4
        messageId := .str "14:60001"
        message := .str "pool degraded"
        id := .str "alert_77"
        description := .str "a pool is degraded"
        component := Option.none } }

/-- A queried Unity entry whose content is missing, so model building
raises. -/
def badUnityEntry : Unity.UnityRawAlert :=
  { hasComponentKey := false, content := Option.none }

/-- Witness for C10: one good entry followed by a content-less entry makes
the whole call error out with InvalidResults. -/
theorem C10_no_partial_list_witness :
    Unity.parse_queried_alerts (fun _ => some 150)
      (some (QueryPara.mk (some 100) (some 200)))
      ([sampleUnityEntry] ++ badUnityEntry :: []) =
      .error .invalidResults :=
  C10_no_partial_list (fun _ => some 150)
    (some (QueryPara.mk (some 100) (some 200)))
    [sampleUnityEntry] badUnityEntry []
    (by intro a ha
        simp only [List.mem_singleton] at ha
        subst ha
        exact ⟨_, rfl⟩)
    rfl

end Delfin
